import Mathlib

/-!
Shallow embedding of the `dighosp_des` histopathology discrete-event
simulation package (repository `cam-digital-hospitals/dighosp_monorepo`),
covering the parts of the code the specification claims talk about:

* `dighosp_des/distributions.py` — the PERT / triangular distribution suite
  and their integer discretisations (`PERT`, `Tri`, `IntPERT`, `IntTri`);
* `dighosp_des/specimens.py` — priorities, specimen creation, batches;
* `dighosp_des/model.py` — random-stream construction in `Model.__init__` /
  `Model.setup`;
* `dighosp_des/process/core.py` — `ResourceScheduler`, `BatchingProcess`,
  `CollationProcess`, `DeliveryProcess`;
* `dighosp_des/process/p20_cutup.py` — `cutup_generic`.

Random draws performed by third-party samplers (`random.betavariate`,
`random.triangular`, `random.random`) are passed to the embedded functions
as explicit oracle arguments; the embedded code is the deterministic
computation the Python source performs on those draws.
-/

/-- Specimen priority (`specimens.py`, class `Priority`).
Lower value = higher priority. -/
inductive Priority where
  | ROUTINE
  | CANCER
  | PRIORITY
  | URGENT
  deriving DecidableEq, Repr

/-- Integer value of each priority (`specimens.py:13-18`). -/
def Priority.toInt : Priority → ℤ
  | .ROUTINE => 0
  | .CANCER => -1
  | .PRIORITY => -2
  | .URGENT => -3

/-- Specimen source (`specimens.py:44-49`): either internal or external. -/
inductive SpecimenSource where
  | internal
  | external
  deriving DecidableEq, Repr

/-- Modelled from the documented behaviour of the third-party dependency
`salabim.CumPdf` (not part of this repository): given value/cumulative
probability pairs, a sample with uniform draw `u` returns the first value
whose cumulative probability exceeds `u`, and the last listed value if no
entry does. -/
def cumPdfSample {α : Type} (pairs : List (α × ℚ)) (default : α) (u : ℚ) : α :=
  match pairs with
  | [] => default
  | (v, c) :: rest => if u < c then v else cumPdfSample rest default u

/-- Source draw of a new specimen (`specimens.py:44-49`):
`sim.CumPdf(('Internal', 'External'), cumprobabilities=(prob_internal, 1))`. -/
def specimenSourceDraw (prob_internal : ℚ) (u : ℚ) : SpecimenSource :=
  cumPdfSample [(.internal, prob_internal), (.external, 1)] .external u

/-- Priority draw of a new specimen (`specimens.py:51-67`):
`sim.CumPdf((URGENT, PRIORITY, CANCER-or-ROUTINE),
cumprobabilities=(p_urgent, p_urgent + p_priority, 1))`, where the third
value is `CANCER` for the cancer arrival stream and `ROUTINE` otherwise. -/
def specimenPriorityDraw (cancer : Bool) (p_urgent p_priority : ℚ) (u : ℚ) : Priority :=
  cumPdfSample
    [(.URGENT, p_urgent), (.PRIORITY, p_urgent + p_priority),
     ((if cancer then .CANCER else .ROUTINE), 1)]
    (if cancer then .CANCER else .ROUTINE) u

/-! ## Distributions (`dighosp_des/distributions.py`) -/

/-- The `PERT` distribution (`distributions.py:114-162`).  The fields repeat
the constructor arguments; the derived quantities below follow
`PERT.__init__`.  `time_unit_factor` is salabim's conversion factor between
the distribution's time unit and the environment's. -/
structure PERT where
  low : ℚ
  mode : ℚ
  high : ℚ
  time_unit_factor : ℚ

/-- `self._shape = 4` (`distributions.py:133`). -/
def PERT.shape (_ : PERT) : ℚ := 4

/-- `self._range = high - low` (`distributions.py:135`). -/
def PERT.rangeLen (p : PERT) : ℚ := p.high - p.low

/-- `self._alpha = 1 + self._shape * (mode - low) / self._range`
(`distributions.py:136`). -/
def PERT.alpha (p : PERT) : ℚ := 1 + p.shape * (p.mode - p.low) / p.rangeLen

/-- `self._beta = 1 + self._shape * (high - mode) / self._range`
(`distributions.py:137`). -/
def PERT.betaParam (p : PERT) : ℚ := 1 + p.shape * (p.high - p.mode) / p.rangeLen

/-- `self._mean = (low + self._shape * mode + high) / (self._shape + 2)`
(`distributions.py:139`). -/
def PERT.meanRaw (p : PERT) : ℚ := (p.low + p.shape * p.mode + p.high) / (p.shape + 2)

/-- `PERT.sample` (`distributions.py:156-159`):
`val = self._low + beta(self._alpha, self._beta) * self._range;
return val * self.time_unit_factor`.  The draw of
`randomstream.betavariate(alpha, beta)` is the oracle argument `betaDraw`. -/
def PERT.sample (p : PERT) (betaDraw : ℚ) : ℚ :=
  (p.low + betaDraw * p.rangeLen) * p.time_unit_factor

/-- `PERT.mean` (`distributions.py:161-162`):
`return self._mean * self.time_unit_factor`. -/
def PERT.meanVal (p : PERT) : ℚ := p.meanRaw * p.time_unit_factor

/-- The `Tri` triangular distribution (`distributions.py:92-109`); its
constructor reorders `(low, mode, high)` into salabim's
`Triangular(low, high, mode)`. -/
structure Tri where
  low : ℚ
  mode : ℚ
  high : ℚ
  time_unit_factor : ℚ

/-- Modelled from the documented behaviour of the third-party dependency
`salabim.Triangular.sample` (not part of this repository): the raw draw of
`randomstream.triangular(low, high, mode)` — the oracle argument `triDraw`,
which lies in `[low, high]` — scaled by the time-unit factor. -/
def Tri.sample (t : Tri) (triDraw : ℚ) : ℚ := triDraw * t.time_unit_factor

/-- Python `int()` truncation toward zero, applied to an exact rational. -/
def pyInt (x : ℚ) : ℤ := if 0 ≤ x then ⌊x⌋ else ⌈x⌉

/-- The `IntPERT` discretised distribution (`distributions.py:170-195`). -/
structure IntPERT where
  low : ℤ
  mode : ℤ
  high : ℤ

/-- `self.pert = PERT(low-mode-0.5, 0, high-mode+0.5, ...)`
(`distributions.py:184`); no time unit is given, so the factor is 1. -/
def IntPERT.pert (d : IntPERT) : PERT :=
  ⟨(d.low : ℚ) - d.mode - 1/2, 0, (d.high : ℚ) - d.mode + 1/2, 1⟩

/-- `IntPERT.__call__` (`distributions.py:191-192`):
`int(self.pert.sample()) + self.mode` — round toward 0, then add the mode. -/
def IntPERT.call (d : IntPERT) (betaDraw : ℚ) : ℤ :=
  pyInt (d.pert.sample betaDraw) + d.mode

/-- The `IntTri` discretised distribution (`distributions.py:198-224`). -/
structure IntTri where
  low : ℤ
  mode : ℤ
  high : ℤ

/-- `self.tri = Tri(low-mode-0.5, 0, high-mode+0.5, ...)`
(`distributions.py:212`); no time unit is given, so the factor is 1. -/
def IntTri.tri (d : IntTri) : Tri :=
  ⟨(d.low : ℚ) - d.mode - 1/2, 0, (d.high : ℚ) - d.mode + 1/2, 1⟩

/-- `IntTri.__call__` (`distributions.py:219-221`):
`int(self.tri.sample()) + self.mode`. -/
def IntTri.call (d : IntTri) (triDraw : ℚ) : ℤ :=
  pyInt (d.tri.sample triDraw) + d.mode

/-- Restatement of the spec's words for C5 (PERT case): the truncation toward
zero of one sample of the continuous PERT distribution with parameters
`(l - m - 0.5, 0, h - m + 0.5)`, plus `m`. -/
def specIntPERTSample (l m h : ℤ) (betaDraw : ℚ) : ℤ :=
  pyInt ((PERT.mk ((l : ℚ) - m - 1/2) 0 ((h : ℚ) - m + 1/2) 1).sample betaDraw) + m

/-- Restatement of the spec's words for C5 (triangular case): the truncation
toward zero of one sample of the continuous triangular distribution with
parameters `(l - m - 0.5, 0, h - m + 0.5)`, plus `m`. -/
def specIntTriSample (l m h : ℤ) (triDraw : ℚ) : ℤ :=
  pyInt ((Tri.mk ((l : ℚ) - m - 1/2) 0 ((h : ℚ) - m + 1/2) 1).sample triDraw) + m

/-! ## Cut-up (`dighosp_des/process/p20_cutup.py`) -/

/-- The three cut-up task types (`p20_cutup.py:94`). -/
inductive CutupType where
  | bms
  | pool
  | large
  deriving DecidableEq, Repr

/-- Block types (`specimens.py` data model; assigned in `p20_cutup.py`). -/
inductive BlockType where
  | smallSurgical
  | largeSurgical
  | mega
  deriving DecidableEq, Repr

/-- `block_type` assignment in `cutup_generic` (`p20_cutup.py:112-119`):
`'small surgical' if cutup_type == 'bms' else 'large surgical' if
cutup_type == 'pool' else 'large surgical' if (self.prio == Priority.URGENT
or r < self.env.globals.prob_mega_blocks) else 'mega'`, where `r` is the
fresh `self.env.u01()` draw. -/
def cutupBlockType (cutup : CutupType) (prio : Priority) (r prob_mega_blocks : ℚ) : BlockType :=
  match cutup with
  | .bms => .smallSurgical
  | .pool => .largeSurgical
  | .large =>
      if prio = .URGENT ∨ r < prob_mega_blocks then .largeSurgical else .mega

/-- `n_blocks` assignment in `cutup_generic` (`p20_cutup.py:121-127`):
for the large branch, a draw of `num_blocks_mega` if the block type is
`'mega'`, else a draw of `num_blocks_large_surgical`; otherwise 1.  The two
distribution draws are the oracle arguments. -/
def cutupNumBlocks (cutup : CutupType) (blockType : BlockType)
    (numBlocksMegaDraw numBlocksLargeSurgicalDraw : ℤ) : ℤ :=
  match cutup with
  | .large =>
      if blockType = .mega then numBlocksMegaDraw else numBlocksLargeSurgicalDraw
  | _ => 1

/-! ## Delivery (`dighosp_des/process/core.py`, `DeliveryProcess`) -/

/-- An entity arriving at a `DeliveryProcess` in-queue: either a `Batch`
(carrying its members' priorities) or a single `Component` with its own
priority (`core.py:316-319`, `specimens.py:107-116`). -/
inductive DeliveryEntity where
  | batch (memberPrios : List Priority)
  | single (prio : Priority)
  deriving DecidableEq, Repr

/-- `delivery_prio` in `DeliveryProcess.process` (`core.py:319`):
`entity.prio if not isinstance(entity, Batch) else Priority.ROUTINE`.
This is the request priority used to seize the runner (`core.py:321`). -/
def deliveryPrio : DeliveryEntity → Priority
  | .batch _ => .ROUTINE
  | .single p => p

/-! ## Batching (`dighosp_des/process/core.py`, `BatchingProcess`) -/

/-- A `Batch` under construction (`specimens.py:107-116`): an ordered list
of member entities. -/
structure BatchOut (α : Type) where
  items : List α

/-- `self.batch_size` of a `BatchingProcess` (`core.py:164`): either a fixed
integer or a distribution; a distribution draw is a function of the position
in the random stream. -/
inductive BatchSizeSpec where
  | fixed (n : ℤ)
  | dist (sample : ℕ → ℤ)

/-- `batch_size = self.batch_size() if callable(self.batch_size) else
self.batch_size` (`core.py:182`): the size used for one batch, evaluated
once at batch start at the current random-stream position. -/
def sampleBatchSize : BatchSizeSpec → ℕ → ℤ
  | .fixed n, _ => n
  | .dist f, rngPos => f rngPos

/-- Number of random draws `core.py:182` performs for one batch. -/
def batchSizeDraws : BatchSizeSpec → ℕ
  | .fixed _ => 0
  | .dist _ => 1

/-- One iteration of `BatchingProcess.process` (`core.py:180-189`): sample
the batch size once, pull that many entities from the in-store (`stream`,
consumed from position `pos`), register each into `batch.items`, and push
the batch.  Returns the pushed batch, the new in-store position, and the new
random-stream position. -/
def batchingProcessOnce {α : Type} (bs : BatchSizeSpec) (rngPos : ℕ)
    (stream : ℕ → α) (pos : ℕ) : BatchOut α × ℕ × ℕ :=
  let size := sampleBatchSize bs rngPos
  (⟨(List.range size.toNat).map fun i => stream (pos + i)⟩,
   pos + size.toNat,
   rngPos + batchSizeDraws bs)

/-! ## Resource scheduler (`dighosp_des/process/core.py`, `ResourceScheduler`) -/

/-- Running state of a `ResourceScheduler` body: the resource's current
capacity and the current simulation time (hours). -/
structure SchedState where
  cap : ℕ
  now : ℚ

/-- The conditional capacity update of one allocation slot (`core.py:93-94`):
`if allocation != self.resource.capacity() or self.env.now() == 0:
self.resource.set_capacity(allocation)`; the resulting capacity. -/
def slotCap (a : ℕ) (st : SchedState) : ℕ :=
  if a ≠ st.cap ∨ st.now = 0 then a else st.cap

/-- The inner loop of `ResourceScheduler.process` on a scheduled day
(`core.py:92-95`): for each allocation slot, run the conditional capacity
update, then hold `RESOURCE_ALLOCATION_INTERVAL_HOURS` (= 0.5 h).  Returns
the list of (capacity in effect, hold duration) segments. -/
def schedulerSlots : List ℕ → SchedState → List (ℕ × ℚ)
  | [], _ => []
  | a :: rest, st =>
      (slotCap a st, 1/2) :: schedulerSlots rest ⟨slotCap a st, st.now + 1/2⟩

/-- One day of `ResourceScheduler.process` (`core.py:85-95`): if the day
flag is 0, set capacity 0 and hold `env.days(1)` (= 24 h); otherwise run the
48 half-hour allocation slots. -/
def resourceSchedulerDay (dayFlag : Bool) (allocation : List ℕ)
    (st : SchedState) : List (ℕ × ℚ) :=
  if dayFlag = false then [(0, 24)]
  else schedulerSlots allocation st

/-- The day flag used on the `k`-th day of the run: `itertools.cycle` over
the 7-entry `schedule.day_flags` (`core.py:85`). -/
def schedulerDayFlag (dayFlags : List Bool) (k : ℕ) : Bool :=
  dayFlags.getD (k % dayFlags.length) false

/-! ## Collation (`dighosp_des/process/core.py`, `CollationProcess`) -/

/-- A child entity pulled by a `CollationProcess`, reduced to the fields the
loop body reads: its parent's name (`item.parent.name()`) and the parent's
priority (`item.parent.prio`). -/
structure CollChild where
  parentName : String
  parentPrio : Priority
  deriving DecidableEq, Repr

/-- Error raised by `CollationProcess.process` when the configured count
attribute is absent from the parent's data map: `data[self.count_attr]`
(`core.py:247`) raises `KeyError`. -/
inductive CollError where
  | keyError
  deriving DecidableEq, Repr

/-- One iteration of `CollationProcess.process` (`core.py:228-252`) acting
on a pulled `item`.  `specimenData key attr` is the parent's data map
(`env.specimen_data[key]` for specimens, `item.parent.data` for blocks);
`pool` is `self.pool`.  The item is appended to the pool entry for its
parent; then `data[count_attr]` is read (KeyError and process death if
absent); if the group has reached the declared count, the parent is pushed
downstream with `enter_sorted(..., priority=item.parent.prio)` and the pool
entry is deleted. Returns the new pool and the pushed (parent, priority),
if any. -/
def collationStep (count_attr : String)
    (specimenData : String → String → Option ℤ)
    (pool : String → Option (List CollChild)) (item : CollChild) :
    Except CollError ((String → Option (List CollChild)) × Option (String × Priority)) :=
  let key := item.parentName
  let entry := (pool key).getD [] ++ [item]
  let pool1 : String → Option (List CollChild) :=
    fun k => if k = key then some entry else pool k
  match specimenData key count_attr with
  | none => .error .keyError
  | some n =>
      if (entry.length : ℤ) = n then
        .ok (fun k => if k = key then none else pool1 k,
             some (key, item.parentPrio))
      else
        .ok (pool1, none)

/-! ## Model random streams (`dighosp_des/model.py`) -/

/-- Construction of the model's random stream.  `Model.__init__`
(`model.py:59-63`) passes `random_seed=''` by default (salabim: the empty
string means no reseeding), and `Model.setup` (`model.py:72`) sets
`self.rng = random.Random()` — CPython seeds an argumentless `Random()`
from operating-system entropy, so the resulting stream is the OS-entropy
stream and the `random_seed` argument does not enter it.  Every sampler in
the model (`randomstream=env.rng` at `model.py:123,264,270,276,349-353`,
`specimens.py:47,65`, `core.py:54`) draws from this stream. -/
def modelRngStream (random_seed : String) (osEntropy : ℕ → ℚ) : ℕ → ℚ :=
  fun n => osEntropy n

/-- The `'source'` attribute recorded in `specimen_data` for the first
specimen of a run (`specimens.py:44-49`), as a function of the model
configuration (`prob_internal`), the `random_seed` constructor argument,
and the OS entropy that seeded `Model.rng`: the first `u01`-style draw of
the model's stream feeds the `CumPdf` sampler. -/
def firstSpecimenSource (prob_internal : ℚ) (random_seed : String)
    (osEntropy : ℕ → ℚ) : SpecimenSource :=
  specimenSourceDraw prob_internal (modelRngStream random_seed osEntropy 0)

/-! ## Helper lemmas -/

/-- The conditional capacity update always leaves the capacity equal to the
slot's allocation value: when the condition is false, the old capacity
already equals the allocation. -/
theorem slotCap_eq (a : ℕ) (st : SchedState) : slotCap a st = a := by
  unfold slotCap
  split_ifs with hcond
  · rfl
  · push_neg at hcond
    exact hcond.1.symm

/-- The slot loop of a scheduled day produces one `(allocation value, 0.5 h)`
segment per allocation entry, in order. -/
theorem schedulerSlots_eq_map (alloc : List ℕ) (st : SchedState) :
    schedulerSlots alloc st = alloc.map (fun a => (a, (1/2 : ℚ))) := by
  induction alloc generalizing st with
  | nil => rfl
  | cons a rest ih =>
      simp only [schedulerSlots, List.map, slotCap_eq, ih]

/-- Bounds for Python `int()` truncation: if `x` lies within half a unit of
the integer interval `[a, c]` with `a ≤ 0 ≤ c`, the truncation toward zero
lands in `[a, c]`. -/
theorem pyInt_bounds (a c : ℤ) (x : ℚ) (ha : a ≤ 0) (hc : 0 ≤ c)
    (hlb : (a : ℚ) - 1/2 ≤ x) (hub : x ≤ (c : ℚ) + 1/2) :
    a ≤ pyInt x ∧ pyInt x ≤ c := by
  unfold pyInt
  split_ifs with hx
  · refine ⟨le_trans ha (Int.le_floor.mpr (by exact_mod_cast hx)), ?_⟩
    have h1 : x < ((c + 1 : ℤ) : ℚ) := by push_cast; linarith
    have h2 := Int.floor_lt.mpr h1
    omega
  · push_neg at hx
    have h1 : ((a - 1 : ℤ) : ℚ) < x := by push_cast; linarith
    have h2 := Int.lt_ceil.mpr h1
    have h3 : x ≤ ((0 : ℤ) : ℚ) := by push_cast; linarith
    have h4 := Int.ceil_le.mpr h3
    omega

/-! ## Claim theorems -/

/-- C1: the claim asserts that running the model twice with the same
configuration and the same seed produces identical result documents.  The
code refutes this: `Model.setup` (`model.py:72`) builds `self.rng =
random.Random()` from OS entropy and the `random_seed` argument
(`model.py:62`) never reaches it, so with the same configuration
(`prob_internal = 1/2`) and the same seed string, two runs whose OS entropy
differs record different `'source'` attributes in `specimen_data` — the
result documents are not identical. -/
theorem model_rng_ignores_seed_c1 :
    firstSpecimenSource (1/2) "fixed-seed" (fun _ => 1/4)
      ≠ firstSpecimenSource (1/2) "fixed-seed" (fun _ => 3/4) := by
  norm_num [firstSpecimenSource, modelRngStream, specimenSourceDraw, cumPdfSample]
  decide

/-- C2 counterexample: the claim says a non-URGENT large-branch cut-up
produces mega blocks exactly when the uniform draw `r` satisfies
`r < prob_mega_blocks`.  At the concrete input `r = 0`,
`prob_mega_blocks = 1/2`, priority ROUTINE, we have `r < prob_mega_blocks`,
yet `cutup_generic` assigns block type `'large surgical'`, not `'mega'`
(`p20_cutup.py:112-119`). -/
theorem cutup_mega_counterexample_c2 :
    (0 : ℚ) < 1/2
    ∧ Priority.ROUTINE ≠ Priority.URGENT
    ∧ cutupBlockType .large .ROUTINE 0 (1/2) = .largeSurgical
    ∧ cutupBlockType .large .ROUTINE 0 (1/2) ≠ .mega := by
  refine ⟨by norm_num, by decide, ?_, ?_⟩ <;>
    norm_num [cutupBlockType] <;> decide

/-- C2 (amended): in the large-specimens branch, `cutup_generic` produces
large-surgical blocks exactly when the specimen is URGENT or the uniform
draw satisfies `r < prob_mega_blocks`, and mega blocks otherwise (the sense
of `prob_mega_blocks` is inverted relative to its name); the block count is
a `num_blocks_mega` draw for mega blocks and a `num_blocks_large_surgical`
draw for large-surgical blocks; an URGENT specimen always takes the
large-surgical sub-branch. -/
theorem cutup_large_branch_c2 (prio : Priority) (r p : ℚ)
    (numBlocksMegaDraw numBlocksLargeSurgicalDraw : ℤ) :
    cutupBlockType .large prio r p
        = (if prio = .URGENT ∨ r < p then .largeSurgical else .mega)
    ∧ (cutupBlockType .large prio r p = .mega ↔ (prio ≠ .URGENT ∧ ¬ r < p))
    ∧ cutupBlockType .large .URGENT r p = .largeSurgical
    ∧ cutupNumBlocks .large .mega numBlocksMegaDraw numBlocksLargeSurgicalDraw
        = numBlocksMegaDraw
    ∧ cutupNumBlocks .large .largeSurgical numBlocksMegaDraw numBlocksLargeSurgicalDraw
        = numBlocksLargeSurgicalDraw := by
  refine ⟨rfl, ?_, by simp [cutupBlockType], rfl, rfl⟩
  by_cases hcond : prio = Priority.URGENT ∨ r < p
  · simp only [cutupBlockType, if_pos hcond]
    constructor
    · intro hfalse
      exact absurd hfalse (by decide)
    · intro hk
      rcases hcond with hc | hc
      · exact absurd hc hk.1
      · exact absurd hc hk.2
  · simp only [cutupBlockType, if_neg hcond]
    push_neg at hcond
    simp [hcond.1, hcond.2]

/-- C3 counterexample: the claim says the runner is seized with an URGENT
priority when all of the batch's members are URGENT.  For the concrete
batch whose two members are both URGENT, `DeliveryProcess.process`
(`core.py:319`) computes the request priority ROUTINE, not URGENT. -/
theorem delivery_batch_prio_counterexample_c3 :
    (∀ p ∈ ([.URGENT, .URGENT] : List Priority), p = Priority.URGENT)
    ∧ deliveryPrio (.batch [.URGENT, .URGENT]) = .ROUTINE
    ∧ Priority.ROUTINE ≠ Priority.URGENT := by
  decide

/-- C3 (amended): `DeliveryProcess.process` seizes the runner with request
priority ROUTINE for every Batch regardless of the members' priorities,
and with the entity's own priority for a non-Batch entity. -/
theorem delivery_prio_c3 (members : List Priority) (p : Priority) :
    deliveryPrio (.batch members) = .ROUTINE
    ∧ deliveryPrio (.single p) = p :=
  ⟨rfl, rfl⟩

/-- C4: for `low ≤ mode ≤ high` with `low < high`, the `PERT` distribution
has `alpha = 1 + 4(mode-low)/(high-low)` and
`beta = 1 + 4(high-mode)/(high-low)`, each sample is
`low + betavariate(alpha, beta) * (high-low)` scaled by the time-unit
factor, and the mean is `(low + 4*mode + high)/6` scaled by the time-unit
factor. -/
theorem pert_sample_mean_c4 (low mode high tuf : ℚ)
    (h1 : low ≤ mode) (h2 : mode ≤ high) (h3 : low < high) :
    (PERT.mk low mode high tuf).alpha = 1 + 4 * (mode - low) / (high - low)
    ∧ (PERT.mk low mode high tuf).betaParam = 1 + 4 * (high - mode) / (high - low)
    ∧ (∀ b : ℚ, (PERT.mk low mode high tuf).sample b = (low + b * (high - low)) * tuf)
    ∧ (PERT.mk low mode high tuf).meanVal = (low + 4 * mode + high) / 6 * tuf := by
  refine ⟨rfl, rfl, fun b => rfl, ?_⟩
  unfold PERT.meanVal PERT.meanRaw PERT.shape
  norm_num

/-- Witness for C4 at the concrete input `low = 1`, `mode = 2`, `high = 4`,
time-unit factor 1. -/
theorem pert_sample_mean_c4_witness :
    ((1 : ℚ) ≤ 2 ∧ (2 : ℚ) ≤ 4 ∧ (1 : ℚ) < 4)
    ∧ (PERT.mk (1 : ℚ) 2 4 1).meanVal = (1 + 4 * 2 + 4) / 6 * 1 :=
  ⟨⟨by norm_num, by norm_num, by norm_num⟩,
   (pert_sample_mean_c4 1 2 4 1 (by norm_num) (by norm_num) (by norm_num)).2.2.2⟩

/-- C5: for integers `l ≤ m ≤ h`, a sample of `IntPERT(l, m, h)` (resp.
`IntTri(l, m, h)`) equals the truncation toward zero of one sample of the
continuous PERT (resp. triangular) distribution with parameters
`(l - m - 0.5, 0, h - m + 0.5)`, plus `m`. -/
theorem int_dist_shift_c5 (l m h : ℤ) (h1 : l ≤ m) (h2 : m ≤ h)
    (betaDraw triDraw : ℚ) :
    (IntPERT.mk l m h).call betaDraw = specIntPERTSample l m h betaDraw
    ∧ (IntTri.mk l m h).call triDraw = specIntTriSample l m h triDraw :=
  ⟨rfl, rfl⟩

/-- Witness for C5 at the concrete input `l = 1`, `m = 2`, `h = 4`,
beta draw `1/2`, triangular draw `0`. -/
theorem int_dist_shift_c5_witness :
    ((1 : ℤ) ≤ 2 ∧ (2 : ℤ) ≤ 4)
    ∧ (IntPERT.mk 1 2 4).call (1/2) = specIntPERTSample 1 2 4 (1/2) :=
  ⟨⟨by decide, by decide⟩,
   (int_dist_shift_c5 1 2 4 (by decide) (by decide) (1/2) 0).1⟩

/-- C6: each batch pushed by `BatchingProcess.process` contains exactly
`batch_size` member entities, where the size is sampled exactly once per
batch at batch start (the random stream advances by one draw for a
distribution size and by none for a fixed integer size). -/
theorem batching_size_law_c6 {α : Type} (bs : BatchSizeSpec) (rngPos : ℕ)
    (stream : ℕ → α) (pos : ℕ) (hsize : 0 ≤ sampleBatchSize bs rngPos) :
    ((batchingProcessOnce bs rngPos stream pos).1.items.length : ℤ)
        = sampleBatchSize bs rngPos
    ∧ (batchingProcessOnce bs rngPos stream pos).2.2 = rngPos + batchSizeDraws bs := by
  constructor
  · simp only [batchingProcessOnce, List.length_map, List.length_range]
    exact Int.toNat_of_nonneg hsize
  · rfl

/-- Witness for C6 at the concrete input: a distribution batch size whose
draw at random-stream position 1 is 3. -/
theorem batching_size_law_c6_witness :
    (0 ≤ sampleBatchSize (.dist (fun k => (2 : ℤ) + k)) 1)
    ∧ ((batchingProcessOnce (.dist (fun k => (2 : ℤ) + k)) 1
          (fun n => n) 0).1.items.length : ℤ)
        = sampleBatchSize (.dist (fun k => (2 : ℤ) + k)) 1 :=
  ⟨by decide, (batching_size_law_c6 _ _ _ _ (by decide)).1⟩

/-- C7: the `ResourceScheduler` body cycles over the 7 day flags; on a day
whose flag is false it sets capacity 0 and holds 24 hours (one segment
`(0, 24)`); on a day whose flag is true it runs the 48 half-hour allocation
slots, the capacity in effect during slot `i` being the slot's allocation
value, each held for 0.5 hours. -/
theorem resource_scheduler_day_c7 (dayFlags : List Bool) (alloc : List ℕ)
    (st : SchedState) (k : ℕ) (h7 : dayFlags.length = 7) (h48 : alloc.length = 48) :
    (schedulerDayFlag dayFlags k = false →
        resourceSchedulerDay (schedulerDayFlag dayFlags k) alloc st = [(0, 24)])
    ∧ (schedulerDayFlag dayFlags k = true →
        resourceSchedulerDay (schedulerDayFlag dayFlags k) alloc st
            = alloc.map (fun a => (a, (1/2 : ℚ)))
        ∧ (resourceSchedulerDay (schedulerDayFlag dayFlags k) alloc st).length = 48) := by
  constructor
  · intro hf
    simp [resourceSchedulerDay, hf]
  · intro hf
    rw [hf]
    constructor
    · simp [resourceSchedulerDay, schedulerSlots_eq_map]
    · simp [resourceSchedulerDay, schedulerSlots_eq_map, h48]

/-- Witness for C7: a schedule whose Monday flag is false and Tuesday flag
is true, with all 48 allocation slots equal to 2. -/
theorem resource_scheduler_day_c7_witness :
    (([false, true, true, true, true, true, true] : List Bool).length = 7
      ∧ (List.replicate 48 2).length = 48
      ∧ schedulerDayFlag [false, true, true, true, true, true, true] 0 = false
      ∧ schedulerDayFlag [false, true, true, true, true, true, true] 1 = true)
    ∧ resourceSchedulerDay (schedulerDayFlag [false, true, true, true, true, true, true] 0)
        (List.replicate 48 2) ⟨0, 0⟩ = [(0, 24)]
    ∧ (resourceSchedulerDay (schedulerDayFlag [false, true, true, true, true, true, true] 1)
        (List.replicate 48 2) ⟨0, 0⟩).length = 48 :=
  ⟨⟨by decide, by simp, by decide, by decide⟩,
   (resource_scheduler_day_c7 _ _ _ 0 (by decide) (by simp)).1 (by decide),
   ((resource_scheduler_day_c7 _ _ _ 1 (by decide) (by simp)).2 (by decide)).2⟩

/-- C8: when a `CollationProcess` pulls a child whose parent's data map
lacks the configured count attribute, the iteration fails with a `KeyError`
and no parent is pushed; when the attribute is present and the pool entry
for that parent reaches the declared count, the parent is pushed (with
`enter_sorted` at the parent's priority) exactly once and the pool entry is
removed. -/
theorem collation_step_c8 (count_attr : String)
    (specimenData : String → String → Option ℤ)
    (pool : String → Option (List CollChild)) (item : CollChild) :
    (specimenData item.parentName count_attr = none →
        collationStep count_attr specimenData pool item = .error .keyError)
    ∧ (∀ n : ℤ, specimenData item.parentName count_attr = some n →
        ((((pool item.parentName).getD [] ++ [item]).length : ℤ) = n →
          ∃ pool',
            collationStep count_attr specimenData pool item
                = .ok (pool', some (item.parentName, item.parentPrio))
            ∧ pool' item.parentName = none)) := by
  constructor
  · intro hnone
    simp [collationStep, hnone]
  · intro n hsome hlen
    have hstep : collationStep count_attr specimenData pool item
        = .ok (fun k => if k = item.parentName then none
                        else if k = item.parentName
                             then some ((pool item.parentName).getD [] ++ [item])
                             else pool k,
               some (item.parentName, item.parentPrio)) := by
      simp only [collationStep]
      rw [hsome]
      simp only [if_pos hlen]
    exact ⟨_, hstep, by simp⟩

/-- Witness for C8.  First input: an empty data map, so the count-attribute
lookup fails.  Second input: a data map declaring count 1, so the single
pulled child completes the group and the parent is pushed. -/
theorem collation_step_c8_witness :
    ((fun _ _ => (none : Option ℤ)) "s1" "num_blocks" = none
      ∧ collationStep "num_blocks" (fun _ _ => none) (fun _ => none)
          ⟨"s1", .ROUTINE⟩ = .error .keyError)
    ∧ (∃ pool',
        collationStep "num_blocks" (fun _ _ => some 1) (fun _ => none)
            ⟨"s1", .ROUTINE⟩ = .ok (pool', some ("s1", .ROUTINE))
        ∧ pool' "s1" = none) :=
  ⟨⟨rfl, (collation_step_c8 "num_blocks" (fun _ _ => none) (fun _ => none)
            ⟨"s1", .ROUTINE⟩).1 rfl⟩,
   (collation_step_c8 "num_blocks" (fun _ _ => some 1) (fun _ => none)
      ⟨"s1", .ROUTINE⟩).2 1 rfl (by simp)⟩

/-- C9: for integers `l ≤ m ≤ h`, every value of `IntPERT(l, m, h)` and of
`IntTri(l, m, h)` lies in `[l, h]`, given that the underlying continuous
draws lie in their supports (the beta variate in `[0, 1]`; the triangular
draw in `[low, high]` of the shifted distribution). -/
theorem int_dist_range_c9 (l m h : ℤ) (h1 : l ≤ m) (h2 : m ≤ h)
    (betaDraw : ℚ) (hb0 : 0 ≤ betaDraw) (hb1 : betaDraw ≤ 1)
    (triDraw : ℚ) (ht0 : (l : ℚ) - m - 1/2 ≤ triDraw)
    (ht1 : triDraw ≤ (h : ℚ) - m + 1/2) :
    (l ≤ (IntPERT.mk l m h).call betaDraw ∧ (IntPERT.mk l m h).call betaDraw ≤ h)
    ∧ (l ≤ (IntTri.mk l m h).call triDraw ∧ (IntTri.mk l m h).call triDraw ≤ h) := by
  have hlh : (l : ℚ) ≤ (h : ℚ) := by exact_mod_cast le_trans h1 h2
  have key : ∀ x : ℚ, (l : ℚ) - m - 1/2 ≤ x → x ≤ (h : ℚ) - m + 1/2 →
      l ≤ pyInt x + m ∧ pyInt x + m ≤ h := by
    intro x hxl hxu
    have hbnd := pyInt_bounds (l - m) (h - m) x (by omega) (by omega)
      (by push_cast; linarith) (by push_cast; linarith)
    omega
  have hrange : (0 : ℚ) ≤ ((h : ℚ) - m + 1/2) - ((l : ℚ) - m - 1/2) := by
    linarith
  constructor
  · have hs : (IntPERT.mk l m h).call betaDraw
        = pyInt ((l : ℚ) - m - 1/2
            + betaDraw * (((h : ℚ) - m + 1/2) - ((l : ℚ) - m - 1/2))) + m := by
      simp [IntPERT.call, IntPERT.pert, PERT.sample, PERT.rangeLen]
    rw [hs]
    refine key _ ?_ ?_
    · have := mul_nonneg hb0 hrange
      linarith
    · have := mul_le_of_le_one_left hrange hb1
      linarith
  · have hs : (IntTri.mk l m h).call triDraw = pyInt triDraw + m := by
      simp [IntTri.call, IntTri.tri, Tri.sample]
    rw [hs]
    exact key _ ht0 ht1

/-- Witness for C9 at the concrete input `l = 1`, `m = 2`, `h = 4`, beta
draw `1/2`, triangular draw `-3/2`. -/
theorem int_dist_range_c9_witness :
    ((1 : ℤ) ≤ 2 ∧ (2 : ℤ) ≤ 4
      ∧ (0 : ℚ) ≤ 1/2 ∧ (1/2 : ℚ) ≤ 1
      ∧ ((1 : ℤ) : ℚ) - (2 : ℤ) - 1/2 ≤ -3/2
      ∧ (-3/2 : ℚ) ≤ ((4 : ℤ) : ℚ) - (2 : ℤ) + 1/2)
    ∧ (1 ≤ (IntPERT.mk 1 2 4).call (1/2) ∧ (IntPERT.mk 1 2 4).call (1/2) ≤ 4)
    ∧ (1 ≤ (IntTri.mk 1 2 4).call (-3/2) ∧ (IntTri.mk 1 2 4).call (-3/2) ≤ 4) :=
  ⟨⟨by decide, by decide, by norm_num, by norm_num, by norm_num, by norm_num⟩,
   int_dist_range_c9 1 2 4 (by decide) (by decide) (1/2) (by norm_num) (by norm_num)
     (-3/2) (by norm_num) (by norm_num)⟩

/-- C10: a specimen created by the cancer arrival stream draws its priority
from {URGENT, PRIORITY, CANCER} and is never ROUTINE; a specimen created by
the non-cancer stream draws from {URGENT, PRIORITY, ROUTINE} and is never
CANCER. -/
theorem specimen_priority_support_c10 (p_urgent p_priority u : ℚ) :
    (specimenPriorityDraw true p_urgent p_priority u
        ∈ ([.URGENT, .PRIORITY, .CANCER] : List Priority)
      ∧ specimenPriorityDraw true p_urgent p_priority u ≠ .ROUTINE)
    ∧ (specimenPriorityDraw false p_urgent p_priority u
        ∈ ([.URGENT, .PRIORITY, .ROUTINE] : List Priority)
      ∧ specimenPriorityDraw false p_urgent p_priority u ≠ .CANCER) := by
  simp only [specimenPriorityDraw, cumPdfSample]
  constructor <;> constructor <;> split_ifs <;> simp_all
